import Mathlib

/-!
Verification of the Google-Photos-Metadata-Merger repository
(src/main.py and src/arrange_photo.py) against its specification.

The Python code is shallowly embedded: every pure helper becomes an
executable Lean function on `String` / `List Char` / `Int` / `Rat`, the
stateful merger and archiver loops become explicit state-passing
functions, and each `re.sub` / `re.search` call is transcribed as a
left-to-right scanner with the exact leftmost, non-overlapping match
semantics of Python's `re` module (including the detail that an
end-anchor `$` also matches just before a final newline).  Python floats
are modeled as exact rationals, `datetime.fromtimestamp` is modeled at
UTC, and the `\s` / `\w` character classes are modeled by their ASCII
subsets, which cover every filename the program manipulates.
-/

namespace GPMM

/-- Python regex class `\s` (ASCII subset: space, tab, newline, carriage
return, vertical tab, form feed). -/
def pyIsSpace (c : Char) : Bool :=
  c = ' ' || c = '\t' || c = '\n' || c = '\r' ||
  c = Char.ofNat 11 || c = Char.ofNat 12

/-- Python regex class `\w` (ASCII subset: letters, digits, underscore). -/
def pyIsWord (c : Char) : Bool :=
  c.isAlphanum || c = '_'

/-- Scanner for `re.sub(r"\(\d+\)", "", name)`: delete every occurrence
of an opening parenthesis, one or more digits, and a closing
parenthesis, scanning left to right.  The fuel argument only bounds the
recursion; `fuel = length` always suffices. -/
def subParenNumAux : Nat → List Char → List Char
  | 0, s => s
  | _ + 1, [] => []
  | fuel + 1, c :: rest =>
    if c = '(' then
      match rest.dropWhile Char.isDigit with
      | ')' :: r3 =>
        if (rest.takeWhile Char.isDigit).isEmpty then
          c :: subParenNumAux fuel rest
        else
          subParenNumAux fuel r3
      | _ => c :: subParenNumAux fuel rest
    else c :: subParenNumAux fuel rest

/-- String wrapper for the `(n)`-removal step of `normalize_filename`. -/
def subParenNum (s : String) : String :=
  ⟨subParenNumAux s.data.length s.data⟩

/-- Does `s` end with `pat`? -/
def listEndsWith (pat s : List Char) : Bool :=
  decide (pat.length ≤ s.length) && s.drop (s.length - pat.length) == pat

/-- Python `re.sub(pat ++ "$", "", s)` for a literal pattern `pat`:
remove `pat` at the very end of the string, or just before a final
newline (Python's `$` matches at both positions). -/
def stripEndAnchoredList (pat s : List Char) : List Char :=
  if listEndsWith pat s then
    s.take (s.length - pat.length)
  else if listEndsWith (pat ++ ['\n']) s then
    s.take (s.length - (pat.length + 1)) ++ ['\n']
  else s

/-- The `-edited` suffix removal step of `normalize_filename`. -/
def stripEditedSuffix (s : String) : String :=
  ⟨stripEndAnchoredList "-edited".data s.data⟩

/-- The `_p` suffix removal step of `normalize_filename`. -/
def stripPSuffix (s : String) : String :=
  ⟨stripEndAnchoredList "_p".data s.data⟩

/-- Take exactly `n` digits from the front of `s`. -/
def takeExactDigits (n : Nat) (s : List Char) : Option (List Char × List Char) :=
  let pre := s.take n
  if pre.length == n && pre.all Char.isDigit then some (pre, s.drop n) else none

/-- Expect the single character `c` at the front of `s`. -/
def expectChar (c : Char) : List Char → Option (List Char)
  | [] => none
  | x :: r => if x = c then some r else none

/-- Try to match `(\d{4})-(\d{2})-(\d{2})\s+(\d{2})\.(\d{2})\.(\d{2})`
at the front of `s`; on success return the replacement text
`\1\2\3_\4\5\6` together with the unconsumed remainder. -/
def tryDateAt (s : List Char) : Option (List Char × List Char) :=
  match takeExactDigits 4 s with
  | none => none
  | some (d1, s1) =>
    match expectChar '-' s1 with
    | none => none
    | some s2 =>
      match takeExactDigits 2 s2 with
      | none => none
      | some (d2, s3) =>
        match expectChar '-' s3 with
        | none => none
        | some s4 =>
          match takeExactDigits 2 s4 with
          | none => none
          | some (d3, s5) =>
            if (s5.takeWhile pyIsSpace).isEmpty then none else
            let s6 := s5.dropWhile pyIsSpace
            match takeExactDigits 2 s6 with
            | none => none
            | some (t1, s7) =>
              match expectChar '.' s7 with
              | none => none
              | some s8 =>
                match takeExactDigits 2 s8 with
                | none => none
                | some (t2, s9) =>
                  match expectChar '.' s9 with
                  | none => none
                  | some s10 =>
                    match takeExactDigits 2 s10 with
                    | none => none
                    | some (t3, s11) =>
                      some (d1 ++ d2 ++ d3 ++ ['_'] ++ t1 ++ t2 ++ t3, s11)

/-- Scanner for the date-format rewrite
`re.sub(r"(\d{4})-(\d{2})-(\d{2})\s+(\d{2})\.(\d{2})\.(\d{2})", r"\1\2\3_\4\5\6", name)`. -/
def subDateAux : Nat → List Char → List Char
  | 0, s => s
  | _ + 1, [] => []
  | fuel + 1, c :: rest =>
    match tryDateAt (c :: rest) with
    | some (rep, s') => rep ++ subDateAux fuel s'
    | none => c :: subDateAux fuel rest

/-- String wrapper for the date-format rewrite step. -/
def subDatePattern (s : String) : String :=
  ⟨subDateAux s.data.length s.data⟩

/-- Python `re.sub(r"\s+", "", name)`: replacing every maximal
whitespace run by the empty string deletes exactly the whitespace
characters. -/
def removeWhitespaceChars (s : List Char) : List Char :=
  s.filter (fun c => !pyIsSpace c)

/-- Python `re.sub(r"\.", "", name)`: delete every literal dot. -/
def removeDotChars (s : List Char) : List Char :=
  s.filter (fun c => c != '.')

/-- Python `re.sub(r"_+$", "", name)`: remove a maximal run of
underscores ending at the end of the string, or just before a final
newline. -/
def stripTrailUnderscoresList (s : List Char) : List Char :=
  if s.reverse.head? = some '\n' then
    ('\n' :: s.reverse.tail.dropWhile (fun c => c == '_')).reverse
  else
    (s.reverse.dropWhile (fun c => c == '_')).reverse

/-- String wrapper for the trailing-underscore removal step. -/
def stripTrailingUnderscores (s : String) : String :=
  ⟨stripTrailUnderscoresList s.data⟩

/-- Embedding of `normalize_filename` from src/main.py: the seven
`re.sub` rewrites applied in source order. -/
def normalize_filename (name : String) : String :=
  let n1 := subParenNum name
  let n2 := stripEditedSuffix n1
  let n3 := stripPSuffix n2
  let n4 := subDatePattern n3
  let n5 : String := ⟨removeWhitespaceChars n4.data⟩
  let n6 : String := ⟨removeDotChars n5.data⟩
  stripTrailingUnderscores n6

/-! ### Path helpers (pathlib semantics) -/

/-- Does `s` start with `pre`? -/
def startsWithList (pre s : List Char) : Bool :=
  s.take pre.length == pre

/-- Substring test, as Python's `tok in s`. -/
def containsToken (tok : List Char) : List Char → Bool
  | [] => tok.isEmpty
  | c :: rest => startsWithList tok (c :: rest) || containsToken tok rest

/-- The `pathlib.PurePath.stem` of a flat filename: the name up to its
last dot, provided that dot is neither the first nor the last
character; otherwise the name itself. -/
def pathStem (name : String) : String :=
  let cs := name.data
  let k := cs.reverse.findIdx (fun c => c == '.')
  if k = cs.length then name
  else
    let i := cs.length - 1 - k
    if 0 < i ∧ i < cs.length - 1 then ⟨cs.take i⟩ else name

/-- The `pathlib.PurePath.with_suffix` of a flat filename: drop the
current suffix (if any) and append `suf`. -/
def withSuffix (name suf : String) : String :=
  pathStem name ++ suf

/-- Python `re.sub(r"^\d+_", "", name)`: strip one leading run of
digits followed by an underscore. -/
def stripLeadingTimestamp (name : String) : String :=
  if (name.data.takeWhile Char.isDigit).isEmpty then name
  else
    match name.data.dropWhile Char.isDigit with
    | '_' :: rest => ⟨rest⟩
    | _ => name

/-! ### Sidecar matcher (find_json_for_photo, src/main.py) -/

/-- Helper for the end-anchored `\(\d+\)$` pattern: given the reversed
characters sitting before the closing parenthesis, consume one or more
digits and an opening parenthesis. -/
def revParenStrip (r : List Char) : Option (List Char) :=
  if (r.takeWhile Char.isDigit).isEmpty then none
  else
    match r.dropWhile Char.isDigit with
    | '(' :: r2 => some r2
    | _ => none

/-- Python `re.sub(r"\(\d+\)$", "", s)`: remove a trailing
parenthesised number, also when it sits just before a final newline. -/
def stripTrailParenNumList (s : List Char) : List Char :=
  match s.reverse with
  | ')' :: r =>
    match revParenStrip r with
    | some r2 => r2.reverse
    | none => s
  | '\n' :: ')' :: r =>
    match revParenStrip r with
    | some r2 => r2.reverse ++ ['\n']
    | none => s
  | _ => s

/-- String wrapper for the trailing `(n)` strip used by matcher rule 3. -/
def stripTrailingParenNum (s : String) : String :=
  ⟨stripTrailParenNumList s.data⟩

/-- Try to match `\d{8}_\d{6}` at the front of `s`, returning the
matched token. -/
def tryDateTokenAt (s : List Char) : Option (List Char) :=
  match takeExactDigits 8 s with
  | none => none
  | some (d1, s1) =>
    match expectChar '_' s1 with
    | none => none
    | some s2 =>
      match takeExactDigits 6 s2 with
      | none => none
      | some (d2, _) => some (d1 ++ ['_'] ++ d2)

/-- Python `re.search(r"(\d{8}_\d{6})", s)`: leftmost date-time token. -/
def searchDateTokenAux : List Char → Option (List Char)
  | [] => none
  | c :: rest =>
    match tryDateTokenAt (c :: rest) with
    | some tok => some tok
    | none => searchDateTokenAux rest

/-- String wrapper for the date-time token search of matcher rule 4. -/
def searchDateToken (s : String) : Option String :=
  match searchDateTokenAux s.data with
  | some tok => some ⟨tok⟩
  | none => none

/-- Scanner for `re.sub(r"\(\d+\)|-\w+$|_\w+$", "", s)` (matcher rule
5): delete every parenthesised number, and delete a hyphen or
underscore followed by one or more word characters that run to the end
of the string (or to a final newline). -/
def comboSubAux : Nat → List Char → List Char
  | 0, s => s
  | _ + 1, [] => []
  | fuel + 1, c :: rest =>
    if c = '(' then
      match rest.dropWhile Char.isDigit with
      | ')' :: r3 =>
        if (rest.takeWhile Char.isDigit).isEmpty then c :: comboSubAux fuel rest
        else comboSubAux fuel r3
      | _ => c :: comboSubAux fuel rest
    else if c = '-' || c = '_' then
      if !rest.isEmpty && rest.all pyIsWord then comboSubAux fuel []
      else
        match rest.reverse with
        | '\n' :: w =>
          if !w.isEmpty && w.all pyIsWord then comboSubAux fuel ['\n']
          else c :: comboSubAux fuel rest
        | _ => c :: comboSubAux fuel rest
    else c :: comboSubAux fuel rest

/-- String wrapper for the rule-5 combined strip. -/
def comboSub (s : String) : String :=
  ⟨comboSubAux s.data.length s.data⟩

/-- Which directory a discovered sidecar JSON file lives in: `src` is
the source/photo directory (the repository calls the merger with
`photo_dir = json_dir`), `out` is the output directory. -/
inductive FDir
  | src
  | out
deriving DecidableEq, Repr

/-- A sidecar JSON file as seen by the merger: its directory and flat
filename. -/
structure JsonFile where
  dir : FDir
  name : String
deriving DecidableEq, Repr

/-- The stem the matcher compares against. -/
def jsonStem (j : JsonFile) : String :=
  pathStem j.name

/-- Embedding of `find_json_for_photo` from src/main.py: the five
matching attempts in source order, each scanning the candidate list in
order and returning the first hit. -/
def find_json_for_photo (baseName : String) (jsonFiles : List JsonFile) : Option JsonFile :=
  let normalizedBase := normalize_filename baseName
  match jsonFiles.find? (fun j => startsWithList baseName.data (jsonStem j).data) with
  | some j => some j
  | none =>
  match jsonFiles.find? (fun j => normalize_filename (jsonStem j) == normalizedBase) with
  | some j => some j
  | none =>
  let baseWithoutNumber := stripTrailingParenNum normalizedBase
  match jsonFiles.find? (fun j =>
      stripTrailingParenNum (normalize_filename (jsonStem j)) == baseWithoutNumber) with
  | some j => some j
  | none =>
  match (match searchDateToken normalizedBase with
         | some tok =>
           jsonFiles.find? (fun j => containsToken tok.data (normalize_filename (jsonStem j)).data)
         | none => none) with
  | some j => some j
  | none =>
  let baseClean := comboSub normalizedBase
  jsonFiles.find? (fun j => comboSub (normalize_filename (jsonStem j)) == baseClean)

/-- Instrumented variant of `find_json_for_photo` recording which of
the five attempts produced the returned file; used only to state
claims about the ladder order. -/
def matchRuleIndex (baseName : String) (jsonFiles : List JsonFile) : Option (Nat × JsonFile) :=
  let normalizedBase := normalize_filename baseName
  match jsonFiles.find? (fun j => startsWithList baseName.data (jsonStem j).data) with
  | some j => some (1, j)
  | none =>
  match jsonFiles.find? (fun j => normalize_filename (jsonStem j) == normalizedBase) with
  | some j => some (2, j)
  | none =>
  let baseWithoutNumber := stripTrailingParenNum normalizedBase
  match jsonFiles.find? (fun j =>
      stripTrailingParenNum (normalize_filename (jsonStem j)) == baseWithoutNumber) with
  | some j => some (3, j)
  | none =>
  match (match searchDateToken normalizedBase with
         | some tok =>
           jsonFiles.find? (fun j => containsToken tok.data (normalize_filename (jsonStem j)).data)
         | none => none) with
  | some j => some (4, j)
  | none =>
  let baseClean := comboSub normalizedBase
  match jsonFiles.find? (fun j => comboSub (normalize_filename (jsonStem j)) == baseClean) with
  | some j => some (5, j)
  | none => none

/-! ### Date model (src/arrange_photo.py) -/

/-- A Python `datetime.datetime` value, to second precision. -/
structure PyDate where
  year : Int
  month : Nat
  day : Nat
  hour : Nat
  minute : Nat
  second : Nat
deriving DecidableEq, Repr

/-- Gregorian leap-year test. -/
def isLeapYear (y : Int) : Bool :=
  y % 4 == 0 && (y % 100 != 0 || y % 400 == 0)

/-- Length of a month in the proleptic Gregorian calendar. -/
def daysInMonth (y : Int) (m : Nat) : Nat :=
  if m = 2 then (if isLeapYear y then 29 else 28)
  else if m = 4 ∨ m = 6 ∨ m = 9 ∨ m = 11 then 30
  else 31

/-- Numeric value of a digit character. -/
def digitVal (c : Char) : Nat :=
  c.toNat - '0'.toNat

/-- CPython strptime directive `%m`, regex `1[0-2]|0[1-9]|[1-9]`. -/
def parseMonthDir : List Char → Option (Nat × List Char)
  | a :: b :: r =>
    if a = '1' && b.isDigit && digitVal b ≤ 2 then some (10 + digitVal b, r)
    else if a = '0' && b.isDigit && 1 ≤ digitVal b then some (digitVal b, r)
    else if a.isDigit && 1 ≤ digitVal a then some (digitVal a, b :: r)
    else none
  | [a] => if a.isDigit && 1 ≤ digitVal a then some (digitVal a, []) else none
  | [] => none

/-- CPython strptime directive `%d`, regex `3[01]|[12]\d|0[1-9]|[1-9]`. -/
def parseDayDir : List Char → Option (Nat × List Char)
  | a :: b :: r =>
    if a = '3' && (b = '0' || b = '1') then some (30 + digitVal b, r)
    else if (a = '1' || a = '2') && b.isDigit then some (10 * digitVal a + digitVal b, r)
    else if a = '0' && b.isDigit && 1 ≤ digitVal b then some (digitVal b, r)
    else if a.isDigit && 1 ≤ digitVal a then some (digitVal a, b :: r)
    else none
  | [a] => if a.isDigit && 1 ≤ digitVal a then some (digitVal a, []) else none
  | [] => none

/-- CPython strptime directive `%H`, regex `2[0-3]|[0-1]\d|\d`. -/
def parseHourDir : List Char → Option (Nat × List Char)
  | a :: b :: r =>
    if a = '2' && b.isDigit && digitVal b ≤ 3 then some (20 + digitVal b, r)
    else if (a = '0' || a = '1') && b.isDigit then some (10 * digitVal a + digitVal b, r)
    else if a.isDigit then some (digitVal a, b :: r)
    else none
  | [a] => if a.isDigit then some (digitVal a, []) else none
  | [] => none

/-- CPython strptime directives `%M` and `%S`, regex `[0-5]\d|\d`. -/
def parseMinSecDir : List Char → Option (Nat × List Char)
  | a :: b :: r =>
    if a.isDigit && digitVal a ≤ 5 && b.isDigit then some (10 * digitVal a + digitVal b, r)
    else if a.isDigit then some (digitVal a, b :: r)
    else none
  | [a] => if a.isDigit then some (digitVal a, []) else none
  | [] => none

/-- CPython strptime directive `%Y`, regex `\d\d\d\d`. -/
def parseYear4 : List Char → Option (Nat × List Char)
  | a :: b :: c :: d :: r =>
    if a.isDigit && b.isDigit && c.isDigit && d.isDigit then
      some (1000 * digitVal a + 100 * digitVal b + 10 * digitVal c + digitVal d, r)
    else none
  | _ => none

/-- A literal whitespace character in a strptime format string matches
one or more whitespace characters. -/
def parseWs1 (s : List Char) : Option (List Char) :=
  if (s.takeWhile pyIsSpace).isEmpty then none
  else some (s.dropWhile pyIsSpace)

/-- Embedding of `datetime.strptime(s, "%Y:%m:%d %H:%M:%S")`: directive
parsing, full consumption of the input, and the `datetime` constructor
validation of year and day-of-month.  Returns `none` where Python
raises `ValueError`. -/
def strptimeExif (s : String) : Option PyDate :=
  match parseYear4 s.data with
  | none => none
  | some (y, r1) =>
  match expectChar ':' r1 with
  | none => none
  | some r2 =>
  match parseMonthDir r2 with
  | none => none
  | some (m, r3) =>
  match expectChar ':' r3 with
  | none => none
  | some r4 =>
  match parseDayDir r4 with
  | none => none
  | some (d, r5) =>
  match parseWs1 r5 with
  | none => none
  | some r6 =>
  match parseHourDir r6 with
  | none => none
  | some (hh, r7) =>
  match expectChar ':' r7 with
  | none => none
  | some r8 =>
  match parseMinSecDir r8 with
  | none => none
  | some (mm, r9) =>
  match expectChar ':' r9 with
  | none => none
  | some r10 =>
  match parseMinSecDir r10 with
  | none => none
  | some (ss, r11) =>
    if r11.isEmpty && decide (1 ≤ y) && decide (d ≤ daysInMonth (y : Int) m) then
      some ⟨(y : Int), m, d, hh, mm, ss⟩
    else none

/-- Embedding of `datetime.strptime(ds, "%Y%m%d")` on the matched
8-digit run. -/
def strptimeYmd (ds : List Char) : Option PyDate :=
  match parseYear4 ds with
  | none => none
  | some (y, r1) =>
  match parseMonthDir r1 with
  | none => none
  | some (m, r2) =>
  match parseDayDir r2 with
  | none => none
  | some (d, r3) =>
    if r3.isEmpty && decide (1 ≤ y) && decide (d ≤ daysInMonth (y : Int) m) then
      some ⟨(y : Int), m, d, 0, 0, 0⟩
    else none

/-- Python `re.search(r"(\d{8})", filename)`: the first run of eight
consecutive digits. -/
def findEightDigits : List Char → Option (List Char)
  | [] => none
  | c :: rest =>
    let pre := (c :: rest).take 8
    if pre.length == 8 && pre.all Char.isDigit then some pre
    else findEightDigits rest

/-- Embedding of `get_date_from_filename` from src/arrange_photo.py.
`currentYear` models `datetime.now().year`. -/
def get_date_from_filename (currentYear : Int) (filename : String) : Option PyDate :=
  match findEightDigits filename.data with
  | none => none
  | some ds =>
    match strptimeYmd ds with
    | none => none
    | some d => if 1900 ≤ d.year ∧ d.year ≤ currentYear then some d else none

/-- Civil date from a day count relative to 1970-01-01 (Howard
Hinnant's algorithm); all divisions are mathematical floor divisions on
nonnegative intermediate values. -/
def civilFromDays (z0 : Int) : Int × Nat × Nat :=
  let z := z0 + 719468
  let era := z.ediv 146097
  let doe := z - era * 146097
  let yoe := (doe - doe.ediv 1460 + doe.ediv 36524 - doe.ediv 146096).ediv 365
  let y := yoe + era * 400
  let doy := doe - (365 * yoe + yoe.ediv 4 - yoe.ediv 100)
  let mp := (5 * doy + 2).ediv 153
  let d := doy - (153 * mp + 2).ediv 5 + 1
  let m := if mp < 10 then mp + 3 else mp - 9
  (if m ≤ 2 then y + 1 else y, m.toNat, d.toNat)

/-- Embedding of `datetime.fromtimestamp` on integer epoch seconds,
interpreted at UTC (the repository fixes no timezone; every claim
below is robust to a constant offset of a few hours). -/
def fromtimestamp (t : Int) : PyDate :=
  let days := t.ediv 86400
  let secs := (t.emod 86400).toNat
  let c := civilFromDays days
  ⟨c.1, c.2.1, c.2.2, secs / 3600, secs % 3600 / 60, secs % 60⟩

/-- Python `int(s)` on a string: strip surrounding whitespace, then an
optional sign and a nonempty digit run.  (Underscore digit grouping is
not modeled; no filename or sidecar in scope uses it.)  Returns `none`
where Python raises `ValueError`. -/
def pyIntOfString (s : String) : Option Int :=
  let cs := s.data.dropWhile pyIsSpace
  let cs := (cs.reverse.dropWhile pyIsSpace).reverse
  let natVal := fun (ds : List Char) => ds.foldl (fun a c => 10 * a + digitVal c) 0
  match cs with
  | '-' :: ds =>
    if !ds.isEmpty && ds.all Char.isDigit then some (-(natVal ds : Int)) else none
  | '+' :: ds =>
    if !ds.isEmpty && ds.all Char.isDigit then some ((natVal ds : Int)) else none
  | ds =>
    if !ds.isEmpty && ds.all Char.isDigit then some ((natVal ds : Int)) else none

/-- The sidecar JSON schema consumed by both pipelines.  `timestamp` is
`none` when the field is missing; string-typed timestamps model the
string-or-int schema (Google Takeout emits strings).  Latitude,
longitude and altitude model Python floats as exact rationals. -/
structure Sidecar where
  timestamp : Option String
  formatted : String
  latitude : Rat
  longitude : Rat
  altitude : Rat
  people : List String
deriving DecidableEq, Repr

/-- The candidate sidecar paths probed by `get_date_from_json`, in
source order. -/
def jsonCandidatePaths (imageName : String) : List String :=
  let originalName := stripLeadingTimestamp imageName
  [ withSuffix imageName ".jpg.json",
    withSuffix imageName ".jpeg.json",
    withSuffix imageName ".png.json",
    withSuffix imageName ".gif.json",
    withSuffix imageName ".mp4.json",
    withSuffix imageName ".bmp.json",
    withSuffix imageName ".json",
    withSuffix originalName ".json",
    withSuffix originalName ".bmp.json" ]

/-- The readable files next to the archiver's images: path to parse
result; `none` as value models a file whose `json.load` raises. -/
abbrev JsonFs := List (String × Option Sidecar)

/-- The candidate loop of `get_date_from_json`: a missing file is
skipped, a read or `int()` error is caught and the loop continues, a
falsy timestamp is skipped, and an out-of-range decoded year falls
through to the next candidate. -/
def dateFromJsonLoop (currentYear : Int) (fs : JsonFs) : List String → Option PyDate
  | [] => none
  | p :: rest =>
    match fs.lookup p with
    | none => dateFromJsonLoop currentYear fs rest
    | some none => dateFromJsonLoop currentYear fs rest
    | some (some sc) =>
      match sc.timestamp with
      | none => dateFromJsonLoop currentYear fs rest
      | some ts =>
        if ts == "" then dateFromJsonLoop currentYear fs rest
        else
          match pyIntOfString ts with
          | none => dateFromJsonLoop currentYear fs rest
          | some t =>
            let d := fromtimestamp t
            if 1900 ≤ d.year ∧ d.year ≤ currentYear then some d
            else dateFromJsonLoop currentYear fs rest

/-- Embedding of `get_date_from_json` from src/arrange_photo.py. -/
def get_date_from_json (currentYear : Int) (fs : JsonFs) (imageName : String) : Option PyDate :=
  dateFromJsonLoop currentYear fs (jsonCandidatePaths imageName)

/-- An image file as the archiver's date resolver sees it: its flat
name, the format `PIL.Image.open` reports (`none` models an open
failure, whose exception is caught), and the value of the
`DateTimeOriginal` EXIF tag if present. -/
structure MediaEntry where
  name : String
  format : Option String
  exifDateTimeOriginal : Option String
deriving DecidableEq, Repr

/-- Embedding of `get_date_taken` from src/arrange_photo.py: embedded
EXIF date first (only for JPEG/TIFF, parse failures and out-of-range
years falling through), then the sidecar JSON, then the filename
pattern. -/
def get_date_taken (currentYear : Int) (fs : JsonFs) (e : MediaEntry) : Option PyDate :=
  let exifDate :=
    match e.format with
    | some fmt =>
      if fmt == "JPEG" || fmt == "TIFF" then
        match e.exifDateTimeOriginal with
        | some s =>
          match strptimeExif s with
          | some d => if 1900 ≤ d.year ∧ d.year ≤ currentYear then some d else none
          | none => none
        | none => none
      else none
    | none => none
  match exifDate with
  | some d => some d
  | none =>
    match get_date_from_json currentYear fs e.name with
    | some d => some d
    | none => get_date_from_filename currentYear e.name

/-- Scenario predicate for the range-rejection claim: the file at path
`p`, if it exists, parses to a sidecar whose nonempty timestamp decodes
to the year 1850 or to `currentYear + 5`. -/
def sidecarDecodesBadYear (currentYear : Int) (fs : JsonFs) (p : String) : Bool :=
  match fs.lookup p with
  | none => true
  | some none => false
  | some (some sc) =>
    match sc.timestamp with
    | none => false
    | some ts =>
      !(ts == "") &&
      (match pyIntOfString ts with
       | none => false
       | some t =>
         (fromtimestamp t).year == 1850 || (fromtimestamp t).year == currentYear + 5)

/-! ### GPS coordinate encoder (get_exif_gps_dict, src/main.py) -/

/-- Python `int()` on a rational: truncation toward zero. -/
def pyTrunc (q : Rat) : Int :=
  if 0 ≤ q then ⌊q⌋ else ⌈q⌉

/-- Embedding of the inner `convert_to_degrees` of `get_exif_gps_dict`:
degrees, minutes and seconds as `(value, 1)` rational pairs, each value
truncated to an integer. -/
def convert_to_degrees (v : Rat) : (Int × Int) × (Int × Int) × (Int × Int) :=
  let degrees := pyTrunc v
  let minutes := pyTrunc ((v - degrees) * 60)
  let seconds := pyTrunc (((v - degrees) * 60 - minutes) * 60)
  ((degrees, 1), (minutes, 1), (seconds, 1))

/-- The full GPS tag dictionary built by `get_exif_gps_dict`, with
every literal auxiliary tag of the source. -/
structure GpsDict where
  GPSLatitude : (Int × Int) × (Int × Int) × (Int × Int)
  GPSLatitudeRef : String
  GPSLongitude : (Int × Int) × (Int × Int) × (Int × Int)
  GPSLongitudeRef : String
  GPSVersionID : Int × Int × Int × Int
  GPSAltitudeRef : Int
  GPSAltitude : Int × Int
  GPSTimeStamp : (Int × Int) × (Int × Int) × (Int × Int)
  GPSSatellites : String
  GPSStatus : String
  GPSMeasureMode : String
  GPSDOP : Int × Int
  GPSSpeedRef : String
  GPSSpeed : Int × Int
  GPSTrackRef : String
  GPSTrack : Int × Int
  GPSImgDirectionRef : String
  GPSImgDirection : Int × Int
  GPSMapDatum : String
  GPSDestLatitudeRef : String
  GPSDestLatitude : (Int × Int) × (Int × Int) × (Int × Int)
  GPSDestLongitudeRef : String
  GPSDestLongitude : (Int × Int) × (Int × Int) × (Int × Int)
  GPSDestBearingRef : String
  GPSDestBearing : Int × Int
  GPSDestDistanceRef : String
  GPSDestDistance : Int × Int
  GPSProcessingMethod : String
  GPSAreaInformation : String
  GPSDateStamp : String
  GPSDifferential : Int
deriving DecidableEq, Repr

/-- Embedding of `get_exif_gps_dict` from src/main.py; latitude and
longitude model Python floats as exact rationals. -/
def get_exif_gps_dict (lat lon : Rat) : GpsDict :=
  { GPSLatitude := convert_to_degrees |lat|
    GPSLatitudeRef := if 0 ≤ lat then "N" else "S"
    GPSLongitude := convert_to_degrees |lon|
    GPSLongitudeRef := if 0 ≤ lon then "E" else "W"
    GPSVersionID := (2, 2, 0, 0)
    GPSAltitudeRef := 0
    GPSAltitude := (0, 1)
    GPSTimeStamp := ((0, 1), (0, 1), (0, 1))
    GPSSatellites := ""
    GPSStatus := "A"
    GPSMeasureMode := "3"
    GPSDOP := (0, 1)
    GPSSpeedRef := "K"
    GPSSpeed := (0, 1)
    GPSTrackRef := "T"
    GPSTrack := (0, 1)
    GPSImgDirectionRef := "M"
    GPSImgDirection := (0, 1)
    GPSMapDatum := "WGS-84"
    GPSDestLatitudeRef := "N"
    GPSDestLatitude := ((0, 1), (0, 1), (0, 1))
    GPSDestLongitudeRef := "E"
    GPSDestLongitude := ((0, 1), (0, 1), (0, 1))
    GPSDestBearingRef := "M"
    GPSDestBearing := (0, 1)
    GPSDestDistanceRef := "K"
    GPSDestDistance := (0, 1)
    GPSProcessingMethod := ""
    GPSAreaInformation := ""
    GPSDateStamp := ""
    GPSDifferential := 0 }

/-! ### Merger (process_photos_and_json, src/main.py)

The filesystem copy/move/EXIF-embedding primitives are out of scope
(external collaborators per the specification) and modeled as
succeeding; the merger state records only which filenames exist in the
flat source and output directories.  The repository invokes the merger
with `photo_dir = json_dir`, so the source directory holds both the
media and their sidecars. -/

/-- Does `s` end with `suf`?  (List-level `str.endswith`, used instead
of the byte-position-based core function so that `decide` can evaluate
it.) -/
def strEndsWith (suf s : String) : Bool :=
  listEndsWith suf.data s.data

/-- Per-file outcomes the merger prints. -/
inductive MergeEvent
  | processed (oldName newName : String)
  | skipNoTimestamp (name : String)
  | noJson (name : String)
  | error (name : String)
deriving DecidableEq, Repr

/-- The flat directories the merger manipulates. -/
structure MergeState where
  src : List String
  out : List String
deriving DecidableEq, Repr

/-- Parse results of the sidecar files on disk: `none` as value models
a file whose `json.load` raises. -/
abbrev MergeContent := List (JsonFile × Option Sidecar)

/-- The glob patterns of the merger, in source order. -/
def mergerGlobPatterns : List String :=
  [".jpg", ".png", ".gif", ".heic", ".mp4", ".mov", ".bmp"]

/-- `photo_dir.glob(ext)` for each pattern, concatenated in pattern
order; directory enumeration order is modeled as list order. -/
def mediaFilesOf (st : MergeState) : List String :=
  (mergerGlobPatterns.map (fun ext => st.src.filter (fun n => strEndsWith ext n))).flatten

/-- The one-time snapshot `list(json_dir.glob("*.json")) +
list(output_dir.glob("*.json"))` taken before the merger loop. -/
def jsonSnapshot (st : MergeState) : List JsonFile :=
  (st.src.filter (fun n => strEndsWith ".json" n)).map (fun n => ⟨FDir.src, n⟩) ++
  (st.out.filter (fun n => strEndsWith ".json" n)).map (fun n => ⟨FDir.out, n⟩)

/-- Does the matched sidecar file still exist (`json_file.exists()`)? -/
def jsonFileExists (st : MergeState) (j : JsonFile) : Bool :=
  match j.dir with
  | FDir.src => st.src.contains j.name
  | FDir.out => st.out.contains j.name

/-- `shutil.copy` into a flat directory listing: the name is present
afterwards (an existing same-named file is silently overwritten). -/
def addFile (n : String) (l : List String) : List String :=
  if l.contains n then l else l ++ [n]

/-- One iteration of the merger loop for one media file: match a
sidecar against the snapshot, re-check its existence, read it (a read
error is caught per file), skip on a falsy timestamp, otherwise copy
the media as `<timestamp>_<name>`, copy the sidecar alongside, delete
the original media, and delete the original sidecar only when it lives
in the source directory.  The JPEG-only EXIF/utime writes touch file
contents, not the directory layout, and their exceptions are caught,
so they do not appear in the state. -/
def processOne (content : MergeContent) (snapshot : List JsonFile)
    (st : MergeState) (media : String) : MergeState × MergeEvent :=
  match find_json_for_photo (pathStem media) snapshot with
  | none => (st, MergeEvent.noJson media)
  | some jf =>
    if jsonFileExists st jf then
      match content.lookup jf with
      | none => (st, MergeEvent.error media)
      | some none => (st, MergeEvent.error media)
      | some (some sc) =>
        match sc.timestamp with
        | none => (st, MergeEvent.skipNoTimestamp media)
        | some ts =>
          if ts == "" then (st, MergeEvent.skipNoTimestamp media)
          else
            let newName := ts ++ "_" ++ media
            let out2 := addFile (newName ++ ".json") (addFile newName st.out)
            let src1 := st.src.erase media
            let src2 := if jf.dir = FDir.src then src1.erase jf.name else src1
            (⟨src2, out2⟩, MergeEvent.processed media newName)
    else (st, MergeEvent.noJson media)

/-- The merger loop over a list of media files. -/
def mergeRun (content : MergeContent) (snapshot : List JsonFile)
    (st : MergeState) : List String → MergeState × List MergeEvent
  | [] => (st, [])
  | m :: rest =>
    let r := processOne content snapshot st m
    let rr := mergeRun content snapshot r.1 rest
    (rr.1, r.2 :: rr.2)

/-- Embedding of `process_photos_and_json` from src/main.py. -/
def process_photos_and_json (content : MergeContent) (st : MergeState) :
    MergeState × List MergeEvent :=
  mergeRun content (jsonSnapshot st) st (mediaFilesOf st)

/-! ### Archiver (create_date_folders, src/arrange_photo.py) -/

/-- ASCII `str.lower`. -/
def strToLower (s : String) : String :=
  ⟨s.data.map Char.toLower⟩

/-- The `pathlib.PurePath.suffix` of a flat filename. -/
def pathSuffix (name : String) : String :=
  let cs := name.data
  let k := cs.reverse.findIdx (fun c => c == '.')
  if k = cs.length then ""
  else
    let i := cs.length - 1 - k
    if 0 < i ∧ i < cs.length - 1 then ⟨cs.drop i⟩ else ""

/-- Per-file outcomes the archiver prints. -/
inductive ArchEvent
  | skipped (name : String)
  | moved (name dest : String)
  | noDate (name : String)
deriving DecidableEq, Repr

/-- The archiver's supported extension set. -/
def archiverExtensions : List String :=
  [".jpg", ".jpeg", ".png", ".gif", ".bmp", ".tiff", ".webp", ".mp4"]

/-- Zero-padded two-digit month (`f"{month:02d}"`). -/
def pad2 (n : Nat) : String :=
  if n < 10 then "0" ++ toString n else toString n

/-- The destination `output/<year>/<month>/<name>` of a resolved file,
relative to the output directory. -/
def destPath (d : PyDate) (name : String) : String :=
  toString d.year ++ "/" ++ pad2 d.month ++ "/" ++ name

/-- `shutil.move` with POSIX `os.rename` semantics when the
destination names a file: the destination ends up holding the moved
file, silently replacing any file previously at that path.  The map
sends each occupied destination path to the name of the top-level file
whose content now sits there. -/
def shutilMovePosix (srcName destP : String) (sub : List (String × String)) :
    List (String × String) :=
  (sub.filter (fun e => e.1 != destP)) ++ [(destP, srcName)]

/-- One iteration of the archiver loop for one top-level file: skip
JSON and unsupported extensions, resolve the date, and on success move
the file into its year/month folder. -/
def archStep (currentYear : Int) (fs : JsonFs) (sub : List (String × String))
    (e : MediaEntry) : List (String × String) × ArchEvent :=
  let suf := strToLower (pathSuffix e.name)
  if suf == ".json" || !(archiverExtensions.contains suf) then
    (sub, ArchEvent.skipped e.name)
  else
    match get_date_taken currentYear fs e with
    | some d =>
      (shutilMovePosix e.name (destPath d e.name) sub,
       ArchEvent.moved e.name (destPath d e.name))
    | none => (sub, ArchEvent.noDate e.name)

/-- Embedding of the `create_date_folders` loop over the top-level
files of the output directory (directories returned by the glob are
skipped by the `is_file` check and are not modeled). -/
def create_date_folders (currentYear : Int) (fs : JsonFs)
    (sub : List (String × String)) :
    List MediaEntry → List (String × String) × List ArchEvent
  | [] => (sub, [])
  | e :: rest =>
    let r := archStep currentYear fs sub e
    let rr := create_date_folders currentYear fs r.1 rest
    (rr.1, r.2 :: rr.2)

/-! ### Supporting lemmas -/

lemma takeExactDigits_drop {n : Nat} {s d r : List Char}
    (h : takeExactDigits n s = some (d, r)) : r = s.drop n := by
  simp only [takeExactDigits] at h
  split at h
  · simp only [Option.some.injEq, Prod.mk.injEq] at h
    exact h.2.symm
  · exact Option.noConfusion h

lemma expectChar_cons {c : Char} {s r : List Char} (h : expectChar c s = some r) :
    s = c :: r := by
  cases s with
  | nil => exact Option.noConfusion h
  | cons x t =>
    simp only [expectChar] at h
    by_cases hx : x = c
    · rw [if_pos hx] at h
      cases h
      rw [hx]
    · rw [if_neg hx] at h
      exact Option.noConfusion h

lemma tryDateAt_none_of_noSpace {s : List Char} (h : ∀ c ∈ s, pyIsSpace c = false) :
    tryDateAt s = none := by
  unfold tryDateAt
  cases h4 : takeExactDigits 4 s with
  | none => rfl
  | some v =>
    obtain ⟨d1, s1⟩ := v
    dsimp only
    have hs1 : ∀ c ∈ s1, pyIsSpace c = false := fun c hc =>
      h c (List.mem_of_mem_drop (takeExactDigits_drop h4 ▸ hc))
    cases h5 : expectChar '-' s1 with
    | none => rfl
    | some s2 =>
      dsimp only
      have hs2 : ∀ c ∈ s2, pyIsSpace c = false := fun c hc =>
        hs1 c (expectChar_cons h5 ▸ List.mem_cons_of_mem _ hc)
      cases h6 : takeExactDigits 2 s2 with
      | none => rfl
      | some v2 =>
        obtain ⟨d2, s3⟩ := v2
        dsimp only
        have hs3 : ∀ c ∈ s3, pyIsSpace c = false := fun c hc =>
          hs2 c (List.mem_of_mem_drop (takeExactDigits_drop h6 ▸ hc))
        cases h7 : expectChar '-' s3 with
        | none => rfl
        | some s4 =>
          dsimp only
          have hs4 : ∀ c ∈ s4, pyIsSpace c = false := fun c hc =>
            hs3 c (expectChar_cons h7 ▸ List.mem_cons_of_mem _ hc)
          cases h8 : takeExactDigits 2 s4 with
          | none => rfl
          | some v3 =>
            obtain ⟨d3, s5⟩ := v3
            dsimp only
            have hs5 : ∀ c ∈ s5, pyIsSpace c = false := fun c hc =>
              hs4 c (List.mem_of_mem_drop (takeExactDigits_drop h8 ▸ hc))
            have hempty : (s5.takeWhile pyIsSpace).isEmpty = true := by
              cases s5 with
              | nil => rfl
              | cons a t =>
                have ha : pyIsSpace a = false := hs5 a (List.mem_cons_self a t)
                simp [List.takeWhile_cons, ha]
            rw [if_pos hempty]

lemma mem_stripTrailUnderscoresList {c : Char} {s : List Char}
    (h : c ∈ stripTrailUnderscoresList s) : c ∈ s := by
  unfold stripTrailUnderscoresList at h
  split at h
  · next hh =>
    rw [List.mem_reverse] at h
    rcases List.mem_cons.mp h with h | h
    · subst h
      exact List.mem_reverse.mp (List.mem_of_mem_head? hh)
    · exact List.mem_reverse.mp
        (List.mem_of_mem_tail ((List.dropWhile_sublist _).mem h))
  · rw [List.mem_reverse] at h
    exact List.mem_reverse.mp ((List.dropWhile_sublist _).mem h)

lemma stripTrail_idem_of_noNl {s : List Char} (hnl : '\n' ∉ s) :
    stripTrailUnderscoresList (stripTrailUnderscoresList s) =
      stripTrailUnderscoresList s := by
  have h1 : ¬ s.reverse.head? = some '\n' := by
    intro hh
    exact hnl (List.mem_reverse.mp (List.mem_of_mem_head? hh))
  have hA : stripTrailUnderscoresList s =
      (s.reverse.dropWhile (fun c => c == '_')).reverse := by
    unfold stripTrailUnderscoresList
    rw [if_neg h1]
  rw [hA]
  have h2 : ¬ ((s.reverse.dropWhile (fun c => c == '_')).reverse).reverse.head? =
      some '\n' := by
    rw [List.reverse_reverse]
    intro hh
    exact hnl (List.mem_reverse.mp
      ((List.dropWhile_sublist _).mem (List.mem_of_mem_head? hh)))
  unfold stripTrailUnderscoresList
  rw [if_neg h2, List.reverse_reverse, List.dropWhile_idempotent]

lemma subDateAux_eq_self :
    ∀ (fuel : Nat) (s : List Char), (∀ c ∈ s, pyIsSpace c = false) →
      subDateAux fuel s = s := by
  intro fuel
  induction fuel with
  | zero => intro s _; rfl
  | succ n ih =>
    intro s h
    cases s with
    | nil => rfl
    | cons c rest =>
      have hnone : tryDateAt (c :: rest) = none := tryDateAt_none_of_noSpace h
      simp only [subDateAux, hnone]
      rw [ih rest (fun x hx => h x (List.mem_cons_of_mem _ hx))]

lemma noSpace_normalize (x : String) :
    ∀ c ∈ (normalize_filename x).data, pyIsSpace c = false := by
  intro c hc
  have hc' : c ∈ stripTrailUnderscoresList (removeDotChars (removeWhitespaceChars
      (subDatePattern (stripPSuffix (stripEditedSuffix (subParenNum x)))).data)) := hc
  have h6 := mem_stripTrailUnderscoresList hc'
  simp only [removeDotChars, removeWhitespaceChars] at h6
  have h5 := (List.mem_filter.mp h6).1
  have := (List.mem_filter.mp h5).2
  simpa using this

lemma noDot_normalize (x : String) :
    ∀ c ∈ (normalize_filename x).data, (c != '.') = true := by
  intro c hc
  have hc' : c ∈ stripTrailUnderscoresList (removeDotChars (removeWhitespaceChars
      (subDatePattern (stripPSuffix (stripEditedSuffix (subParenNum x)))).data)) := hc
  have h6 := mem_stripTrailUnderscoresList hc'
  simp only [removeDotChars] at h6
  exact (List.mem_filter.mp h6).2

lemma stripTrailingUnderscores_normalize (x : String) :
    stripTrailingUnderscores (normalize_filename x) = normalize_filename x := by
  have hfix : ∀ c ∈ removeDotChars (removeWhitespaceChars
      (subDatePattern (stripPSuffix (stripEditedSuffix (subParenNum x)))).data),
      pyIsSpace c = false := by
    intro c hc
    simp only [removeDotChars, removeWhitespaceChars] at hc
    have h5 := (List.mem_filter.mp hc).1
    have := (List.mem_filter.mp h5).2
    simpa using this
  have hnl : '\n' ∉ removeDotChars (removeWhitespaceChars
      (subDatePattern (stripPSuffix (stripEditedSuffix (subParenNum x)))).data) := by
    intro hmem
    exact absurd (hfix '\n' hmem) (by decide)
  show (⟨stripTrailUnderscoresList (stripTrailUnderscoresList (removeDotChars
      (removeWhitespaceChars (subDatePattern (stripPSuffix (stripEditedSuffix
      (subParenNum x)))).data)))⟩ : String) =
    ⟨stripTrailUnderscoresList (removeDotChars (removeWhitespaceChars
      (subDatePattern (stripPSuffix (stripEditedSuffix (subParenNum x)))).data))⟩
  exact congrArg String.mk (stripTrail_idem_of_noNl hnl)

/-! ### Claim C2 -/

/-- Claim C2, counterexample: `normalize_filename` is not idempotent.
For the input "_p_p" the end-anchored `_p` rule fires once, leaving
"_p", and a second application removes that too. -/
theorem normalize_not_idempotent_cx :
    normalize_filename (normalize_filename "_p_p") ≠ normalize_filename "_p_p" := by
  decide

/-- Claim C2, amended: `normalize_filename` is idempotent for every
input whose normalized form is already a fixed point of the first
three rewrite rules (no residual parenthesised number anywhere, no
end-anchored "-edited" or "_p" suffix); the remaining four rules
always fix a normalized form.  Unrestricted idempotence fails, e.g. on
"_p_p". -/
theorem normalize_idempotent_amended (x : String)
    (h1 : subParenNum (normalize_filename x) = normalize_filename x)
    (h2 : stripEditedSuffix (normalize_filename x) = normalize_filename x)
    (h3 : stripPSuffix (normalize_filename x) = normalize_filename x) :
    normalize_filename (normalize_filename x) = normalize_filename x := by
  have hns := noSpace_normalize x
  have hnd := noDot_normalize x
  have hlast : stripTrailingUnderscores (normalize_filename x) = normalize_filename x :=
    stripTrailingUnderscores_normalize x
  generalize hy : normalize_filename x = y
  rw [hy] at hns hnd hlast h1 h2 h3
  have hdate : subDatePattern y = y := by
    simp only [subDatePattern]
    rw [subDateAux_eq_self _ _ hns]
  have h5 : removeWhitespaceChars y.data = y.data :=
    List.filter_eq_self.mpr (fun a ha => by simp [hns a ha])
  have h6 : removeDotChars y.data = y.data := List.filter_eq_self.mpr hnd
  calc normalize_filename y
      = stripTrailingUnderscores ⟨removeDotChars (removeWhitespaceChars
          (subDatePattern (stripPSuffix (stripEditedSuffix (subParenNum y)))).data)⟩ := rfl
    _ = y := by rw [h1, h2, h3, hdate, h5, h6]; exact hlast

/-- Claim C2, witness: the amended idempotence at the concrete input
"photo(1)", whose normalized form "photo" is a fixed point of the
first three rules. -/
theorem normalize_idempotent_amended_witness :
    (subParenNum (normalize_filename "photo(1)") = normalize_filename "photo(1)" ∧
     stripEditedSuffix (normalize_filename "photo(1)") = normalize_filename "photo(1)" ∧
     stripPSuffix (normalize_filename "photo(1)") = normalize_filename "photo(1)") ∧
    normalize_filename (normalize_filename "photo(1)") = normalize_filename "photo(1)" :=
  ⟨⟨by decide, by decide, by decide⟩,
   normalize_idempotent_amended "photo(1)" (by decide) (by decide) (by decide)⟩

/-! ### Claim C9 -/

/-- Claim C9, counterexample: `normalize_filename "IMG(1)-edited.jpg"`
does not drop the "-edited" token: because the extension ".jpg" is
still attached, the end-anchored "-edited" rule cannot fire, and the
result "IMG-editedjpg" still contains "-edited". -/
theorem normalize_example_cx :
    normalize_filename "IMG(1)-edited.jpg" = "IMG-editedjpg" ∧
    containsToken "-edited".data (normalize_filename "IMG(1)-edited.jpg").data = true := by
  decide

/-- Claim C9, amended: on the full filename "IMG(1)-edited.jpg" the
normalizer drops the "(1)" numbering token but keeps "-edited" (the
trailing extension blocks the end-anchored rule); on the bare stem
"IMG(1)-edited" both tokens are dropped and the result is "IMG". -/
theorem normalize_example_amended :
    normalize_filename "IMG(1)-edited.jpg" = "IMG-editedjpg" ∧
    containsToken "(1)".data (normalize_filename "IMG(1)-edited.jpg").data = false ∧
    containsToken "-edited".data (normalize_filename "IMG(1)-edited.jpg").data = true ∧
    normalize_filename "IMG(1)-edited" = "IMG" ∧
    containsToken "(1)".data (normalize_filename "IMG(1)-edited").data = false ∧
    containsToken "-edited".data (normalize_filename "IMG(1)-edited").data = false := by
  decide

/-! ### Claim C3 -/

/-- Claim C3, counterexample: for media stem "photo(1)" and candidate
sidecar stem "photo", matching rule 2 does not fail: `normalize_filename`
deletes the "(1)" group anywhere in the stem, so the normalized stems
are already equal and the matcher returns at rule 2, not rule 3. -/
theorem matcher_ladder_cx :
    normalize_filename "photo" = normalize_filename "photo(1)" ∧
    matchRuleIndex "photo(1)" [⟨FDir.src, "photo.json"⟩] =
      some (2, ⟨FDir.src, "photo.json"⟩) := by
  decide

/-- Claim C3, amended: for media stem "photo(1)" and candidate sidecar
"photo.json", rule 1 (exact raw-stem prefix) fails, but rule 2
(normalized equality) already succeeds because normalization strips the
"(1)" group itself; the matcher, trying the rules in strict order and
stopping at the first success, therefore returns the candidate at rule
2 and never reaches rule 3. -/
theorem matcher_ladder_amended :
    startsWithList "photo(1)".data (jsonStem ⟨FDir.src, "photo.json"⟩).data = false ∧
    normalize_filename (jsonStem ⟨FDir.src, "photo.json"⟩) = normalize_filename "photo(1)" ∧
    matchRuleIndex "photo(1)" [⟨FDir.src, "photo.json"⟩] =
      some (2, ⟨FDir.src, "photo.json"⟩) ∧
    find_json_for_photo "photo(1)" [⟨FDir.src, "photo.json"⟩] =
      some ⟨FDir.src, "photo.json"⟩ := by
  decide

/-! ### Claim C6 -/

/-- Claim C6: merging `photo.jpg` with `photo.json` whose timestamp is
"1000000000" puts `1000000000_photo.jpg` and
`1000000000_photo.jpg.json` into the output directory and removes both
originals from the source directory; and a sidecar that already lives
in the output directory is never deleted. -/
theorem merger_success_postcondition :
    process_photos_and_json
        [(⟨FDir.src, "photo.json"⟩,
          some ⟨some "1000000000", "2001:09:09 01:46:40", 0, 0, 0, []⟩)]
        ⟨["photo.jpg", "photo.json"], []⟩ =
      (⟨[], ["1000000000_photo.jpg", "1000000000_photo.jpg.json"]⟩,
       [MergeEvent.processed "photo.jpg" "1000000000_photo.jpg"]) ∧
    (process_photos_and_json
        [(⟨FDir.out, "photo.json"⟩,
          some ⟨some "1000000000", "2001:09:09 01:46:40", 0, 0, 0, []⟩)]
        ⟨["photo.jpg"], ["photo.json"]⟩).1.out.contains "photo.json" = true := by
  decide

/-! ### Claim C5 -/

/-- Claim C5: when the sidecar matcher returns none for a media file,
the merger leaves both directories exactly as they were and logs the
skip; in particular no media file is deleted without a successful
pairing. -/
theorem merger_no_match_untouched (content : MergeContent) (snapshot : List JsonFile)
    (st : MergeState) (media : String)
    (h : find_json_for_photo (pathStem media) snapshot = none) :
    processOne content snapshot st media = (st, MergeEvent.noJson media) := by
  unfold processOne
  rw [h]

/-- Claim C5, witness: a media file with no candidate sidecars at all
is left untouched. -/
theorem merger_no_match_untouched_witness :
    find_json_for_photo (pathStem "photo.jpg") [] = none ∧
    processOne [] [] ⟨["photo.jpg"], []⟩ "photo.jpg" =
      (⟨["photo.jpg"], []⟩, MergeEvent.noJson "photo.jpg") :=
  ⟨by decide, merger_no_match_untouched [] [] ⟨["photo.jpg"], []⟩ "photo.jpg" (by decide)⟩

/-! ### Claim C10 -/

/-- Claim C10: the merger validates nothing about the sidecar
timestamp it renames with.  Any truthy (nonempty) timestamp string,
numeric or not, in range or not, leads to the copy under the raw
`<timestamp>_<name>` prefix and the deletion of the originals (the
sidecar only when it lives in the source directory); a missing or
empty timestamp leads to a skip with both directories untouched. -/
theorem merger_timestamp_unvalidated :
    (∀ (content : MergeContent) (snapshot : List JsonFile) (st : MergeState)
        (media : String) (jf : JsonFile) (sc : Sidecar) (ts : String),
      find_json_for_photo (pathStem media) snapshot = some jf →
      jsonFileExists st jf = true →
      content.lookup jf = some (some sc) →
      sc.timestamp = some ts →
      ts ≠ "" →
      processOne content snapshot st media =
        (⟨if jf.dir = FDir.src then (st.src.erase media).erase jf.name
          else st.src.erase media,
          addFile ((ts ++ "_" ++ media) ++ ".json") (addFile (ts ++ "_" ++ media) st.out)⟩,
         MergeEvent.processed media (ts ++ "_" ++ media))) ∧
    (∀ (content : MergeContent) (snapshot : List JsonFile) (st : MergeState)
        (media : String) (jf : JsonFile) (sc : Sidecar),
      find_json_for_photo (pathStem media) snapshot = some jf →
      jsonFileExists st jf = true →
      content.lookup jf = some (some sc) →
      (sc.timestamp = none ∨ sc.timestamp = some "") →
      processOne content snapshot st media = (st, MergeEvent.skipNoTimestamp media)) := by
  constructor
  · intro content snapshot st media jf sc ts hf he hl ht hne
    have hb : (ts == "") = false := beq_eq_false_iff_ne.mpr hne
    simp only [processOne, hf, he, hl, ht, hb, if_true, Bool.false_eq_true, if_false]
  · intro content snapshot st media jf sc hf he hl ht
    rcases ht with ht | ht
    · simp only [processOne, hf, he, hl, ht, if_true]
    · simp only [processOne, hf, he, hl, ht, beq_self_eq_true, if_true]

/-- Claim C10, witness: the non-numeric timestamp "notanumber" is
still used verbatim as the rename prefix and both originals are
deleted; the empty timestamp causes a skip. -/
theorem merger_timestamp_unvalidated_witness :
    (find_json_for_photo (pathStem "photo.jpg")
        [⟨FDir.src, "photo.json"⟩] = some ⟨FDir.src, "photo.json"⟩ ∧
      ("notanumber" : String) ≠ "" ∧
      processOne [(⟨FDir.src, "photo.json"⟩, some ⟨some "notanumber", "", 0, 0, 0, []⟩)]
          [⟨FDir.src, "photo.json"⟩] ⟨["photo.jpg", "photo.json"], []⟩ "photo.jpg" =
        (⟨if (⟨FDir.src, "photo.json"⟩ : JsonFile).dir = FDir.src then
            ((["photo.jpg", "photo.json"].erase "photo.jpg").erase "photo.json")
          else ["photo.jpg", "photo.json"].erase "photo.jpg",
          addFile (("notanumber" ++ "_" ++ "photo.jpg") ++ ".json")
            (addFile ("notanumber" ++ "_" ++ "photo.jpg") [])⟩,
         MergeEvent.processed "photo.jpg" ("notanumber" ++ "_" ++ "photo.jpg"))) ∧
    processOne [(⟨FDir.src, "photo.json"⟩, some ⟨some "", "", 0, 0, 0, []⟩)]
        [⟨FDir.src, "photo.json"⟩] ⟨["photo.jpg", "photo.json"], []⟩ "photo.jpg" =
      (⟨["photo.jpg", "photo.json"], []⟩, MergeEvent.skipNoTimestamp "photo.jpg") :=
  ⟨⟨by decide, by decide,
    merger_timestamp_unvalidated.1
      [(⟨FDir.src, "photo.json"⟩, some ⟨some "notanumber", "", 0, 0, 0, []⟩)]
      [⟨FDir.src, "photo.json"⟩] ⟨["photo.jpg", "photo.json"], []⟩ "photo.jpg"
      ⟨FDir.src, "photo.json"⟩ ⟨some "notanumber", "", 0, 0, 0, []⟩ "notanumber"
      (by decide) (by decide) (by decide) (by decide) (by decide)⟩,
   merger_timestamp_unvalidated.2
      [(⟨FDir.src, "photo.json"⟩, some ⟨some "", "", 0, 0, 0, []⟩)]
      [⟨FDir.src, "photo.json"⟩] ⟨["photo.jpg", "photo.json"], []⟩ "photo.jpg"
      ⟨FDir.src, "photo.json"⟩ ⟨some "", "", 0, 0, 0, []⟩
      (by decide) (by decide) (by decide) (Or.inr (by decide))⟩

/-! ### Claim C1 -/

/-- Claim C1: when a media file carries a valid in-range embedded EXIF
DateTimeOriginal (in a format supporting EXIF) and a sidecar JSON with
a conflicting valid in-range timestamp exists among the candidates,
the date resolver returns the embedded EXIF date, not the sidecar
date. -/
theorem resolver_exif_wins (currentYear : Int) (fs : JsonFs) (e : MediaEntry)
    (fmt s : String) (d dJson : PyDate) (p : String) (sc : Sidecar) (ts : String) (t : Int)
    (hfmt : e.format = some fmt) (hjt : fmt = "JPEG" ∨ fmt = "TIFF")
    (hs : e.exifDateTimeOriginal = some s)
    (hp : strptimeExif s = some d)
    (hy1 : 1900 ≤ d.year) (hy2 : d.year ≤ currentYear)
    (_hc : p ∈ jsonCandidatePaths e.name)
    (_hlk : fs.lookup p = some (some sc))
    (_hts : sc.timestamp = some ts) (_htne : ts ≠ "")
    (_hint : pyIntOfString ts = some t)
    (_hdj : fromtimestamp t = dJson)
    (_hjy1 : 1900 ≤ dJson.year) (_hjy2 : dJson.year ≤ currentYear)
    (hne : dJson ≠ d) :
    get_date_taken currentYear fs e = some d ∧
    get_date_taken currentYear fs e ≠ some dJson := by
  have hb : (fmt == "JPEG" || fmt == "TIFF") = true := by
    rcases hjt with h | h <;> simp [h]
  have hmain : get_date_taken currentYear fs e = some d := by
    simp only [get_date_taken, hfmt, hs, hp, hb, if_true]
    rw [if_pos ⟨hy1, hy2⟩]
  refine ⟨hmain, ?_⟩
  rw [hmain]
  intro hcon
  exact hne (Option.some.inj hcon).symm

/-- Claim C1, witness: an EXIF date of 2019-03-14 beats a sidecar
timestamp decoding to 2001-09-09. -/
theorem resolver_exif_wins_witness :
    strptimeExif "2019:03:14 12:00:00" = some ⟨2019, 3, 14, 12, 0, 0⟩ ∧
    fromtimestamp 1000000000 = ⟨2001, 9, 9, 1, 46, 40⟩ ∧
    get_date_taken 2026 [("photo.json", some ⟨some "1000000000", "", 0, 0, 0, []⟩)]
        ⟨"photo.jpg", some "JPEG", some "2019:03:14 12:00:00"⟩ =
      some ⟨2019, 3, 14, 12, 0, 0⟩ ∧
    get_date_taken 2026 [("photo.json", some ⟨some "1000000000", "", 0, 0, 0, []⟩)]
        ⟨"photo.jpg", some "JPEG", some "2019:03:14 12:00:00"⟩ ≠
      some ⟨2001, 9, 9, 1, 46, 40⟩ := by
  refine ⟨by decide, by decide, ?_⟩
  exact resolver_exif_wins 2026
    [("photo.json", some ⟨some "1000000000", "", 0, 0, 0, []⟩)]
    ⟨"photo.jpg", some "JPEG", some "2019:03:14 12:00:00"⟩
    "JPEG" "2019:03:14 12:00:00" ⟨2019, 3, 14, 12, 0, 0⟩ ⟨2001, 9, 9, 1, 46, 40⟩
    "photo.json" ⟨some "1000000000", "", 0, 0, 0, []⟩ "1000000000" 1000000000
    (by decide) (Or.inl rfl) (by decide) (by decide) (by decide) (by decide)
    (by decide) (by decide) (by decide) (by decide) (by decide) (by decide)
    (by decide) (by decide) (by decide)

/-! ### Claim C4 -/

lemma dateFromJsonLoop_none_of_bad (currentYear : Int) (fs : JsonFs) :
    ∀ ps : List String, (∀ p ∈ ps, sidecarDecodesBadYear currentYear fs p = true) →
      dateFromJsonLoop currentYear fs ps = none := by
  intro ps
  induction ps with
  | nil => intro _; rfl
  | cons p rest ih =>
    intro h
    have hp := h p (List.mem_cons_self p rest)
    have hrest := ih (fun q hq => h q (List.mem_cons_of_mem _ hq))
    unfold dateFromJsonLoop
    unfold sidecarDecodesBadYear at hp
    cases hlk : fs.lookup p with
    | none => exact hrest
    | some o =>
      rw [hlk] at hp
      cases o with
      | none => exact Bool.noConfusion hp
      | some sc =>
        dsimp only
        dsimp only at hp
        cases hts : sc.timestamp with
        | none => rw [hts] at hp; exact Bool.noConfusion hp
        | some ts =>
          rw [hts] at hp
          dsimp only at hp
          dsimp only
          have hne : (ts == "") = false := by
            cases hb : (ts == "") with
            | false => rfl
            | true => rw [hb] at hp; exact Bool.noConfusion hp
          rw [hne]
          simp only [Bool.false_eq_true, if_false]
          rw [hne] at hp
          simp only [Bool.not_false, Bool.true_and] at hp
          cases hint : pyIntOfString ts with
          | none => rw [hint] at hp; exact Bool.noConfusion hp
          | some t =>
            rw [hint] at hp
            dsimp only at hp
            dsimp only
            have hyear : (fromtimestamp t).year = 1850 ∨
                (fromtimestamp t).year = currentYear + 5 := by
              rcases Bool.or_eq_true_iff.mp hp with hh | hh
              · exact Or.inl (by exact_mod_cast beq_iff_eq.mp hh)
              · exact Or.inr (by exact_mod_cast beq_iff_eq.mp hh)
            have hrej : ¬ (1900 ≤ (fromtimestamp t).year ∧
                (fromtimestamp t).year ≤ currentYear) := by
              rcases hyear with hh | hh <;> rw [hh] <;> intro hcon <;> omega
            rw [if_neg hrej]
            exact hrest

/-- Claim C4: when every existing candidate sidecar of a media file
decodes to the year 1850 or to `currentYear + 5` (both outside the
accepted range `[1900, currentYear]`) and the file carries no embedded
EXIF date tag, the sidecar step yields nothing and resolution falls
through to the filename 8-digit-pattern source. -/
theorem resolver_range_rejection (currentYear : Int) (fs : JsonFs) (e : MediaEntry)
    (hx : e.exifDateTimeOriginal = none)
    (hbad : ∀ p ∈ jsonCandidatePaths e.name,
      sidecarDecodesBadYear currentYear fs p = true) :
    get_date_from_json currentYear fs e.name = none ∧
    get_date_taken currentYear fs e = get_date_from_filename currentYear e.name := by
  have hj : get_date_from_json currentYear fs e.name = none :=
    dateFromJsonLoop_none_of_bad currentYear fs _ hbad
  refine ⟨hj, ?_⟩
  unfold get_date_taken
  rw [hx, hj]
  cases hf : e.format with
  | none => rfl
  | some fmt =>
    dsimp only
    cases hb : (fmt == "JPEG" || fmt == "TIFF") with
    | false => rfl
    | true => rfl

/-- Claim C4, witness: one sidecar decoding to 1850 and one to
`2026 + 5 = 2031` are both rejected and the filename pattern
`20190314` supplies the date. -/
theorem resolver_range_rejection_witness :
    (∀ p ∈ jsonCandidatePaths "photo_20190314.jpg",
      sidecarDecodesBadYear 2026
        [("photo_20190314.json", some ⟨some "-3771187200", "", 0, 0, 0, []⟩),
         ("photo_20190314.bmp.json", some ⟨some "1940630400", "", 0, 0, 0, []⟩)] p = true) ∧
    (fromtimestamp (-3771187200)).year = 1850 ∧
    (fromtimestamp 1940630400).year = 2026 + 5 ∧
    get_date_from_json 2026
        [("photo_20190314.json", some ⟨some "-3771187200", "", 0, 0, 0, []⟩),
         ("photo_20190314.bmp.json", some ⟨some "1940630400", "", 0, 0, 0, []⟩)]
        "photo_20190314.jpg" = none ∧
    get_date_taken 2026
        [("photo_20190314.json", some ⟨some "-3771187200", "", 0, 0, 0, []⟩),
         ("photo_20190314.bmp.json", some ⟨some "1940630400", "", 0, 0, 0, []⟩)]
        ⟨"photo_20190314.jpg", some "JPEG", none⟩ =
      get_date_from_filename 2026 "photo_20190314.jpg" ∧
    get_date_from_filename 2026 "photo_20190314.jpg" =
      some ⟨2019, 3, 14, 0, 0, 0⟩ := by
  refine ⟨by decide, by decide, by decide, ?_, ?_, by decide⟩
  · exact (resolver_range_rejection 2026
      [("photo_20190314.json", some ⟨some "-3771187200", "", 0, 0, 0, []⟩),
       ("photo_20190314.bmp.json", some ⟨some "1940630400", "", 0, 0, 0, []⟩)]
      ⟨"photo_20190314.jpg", some "JPEG", none⟩ (by decide) (by decide)).1
  · exact (resolver_range_rejection 2026
      [("photo_20190314.json", some ⟨some "-3771187200", "", 0, 0, 0, []⟩),
       ("photo_20190314.bmp.json", some ⟨some "1940630400", "", 0, 0, 0, []⟩)]
      ⟨"photo_20190314.jpg", some "JPEG", none⟩ (by decide) (by decide)).2

/-! ### Claim C7 -/

/-- Claim C7, counterexample: with the destination
`2019/03/a_20190314.jpg` already occupied by another file, the
archiver's move is reported as a success (`moved`, not an error) and
the previously stored file is silently replaced — the move does not
fail loudly. -/
theorem archiver_overwrite_cx :
    archStep 2026 [] [("2019/03/a_20190314.jpg", "old.jpg")]
        ⟨"a_20190314.jpg", some "JPEG", none⟩ =
      ([("2019/03/a_20190314.jpg", "a_20190314.jpg")],
       ArchEvent.moved "a_20190314.jpg" "2019/03/a_20190314.jpg") ∧
    ("2019/03/a_20190314.jpg", "old.jpg") ∉
      (archStep 2026 [] [("2019/03/a_20190314.jpg", "old.jpg")]
        ⟨"a_20190314.jpg", some "JPEG", none⟩).1 := by
  decide

/-- Claim C7, amended: `create_date_folders` performs no
occupied-destination check.  Whenever the date resolves, the file is
moved to `output/<year>/<month>/<name>` unconditionally; under the
POSIX `os.rename` semantics of `shutil.move` onto an existing file
path, a file already at the destination is silently replaced and the
move is reported as a success, after which processing continues with
the next file. -/
theorem archiver_move_unconditional (currentYear : Int) (fs : JsonFs)
    (sub : List (String × String)) (e : MediaEntry) (d : PyDate)
    (rest : List MediaEntry)
    (hsupp : (strToLower (pathSuffix e.name) == ".json" ||
      !(archiverExtensions.contains (strToLower (pathSuffix e.name)))) = false)
    (hdate : get_date_taken currentYear fs e = some d) :
    archStep currentYear fs sub e =
      (shutilMovePosix e.name (destPath d e.name) sub,
       ArchEvent.moved e.name (destPath d e.name)) ∧
    create_date_folders currentYear fs sub (e :: rest) =
      ((create_date_folders currentYear fs
          (shutilMovePosix e.name (destPath d e.name) sub) rest).1,
       ArchEvent.moved e.name (destPath d e.name) ::
         (create_date_folders currentYear fs
           (shutilMovePosix e.name (destPath d e.name) sub) rest).2) := by
  have hstep : archStep currentYear fs sub e =
      (shutilMovePosix e.name (destPath d e.name) sub,
       ArchEvent.moved e.name (destPath d e.name)) := by
    simp only [archStep, hsupp, hdate, Bool.false_eq_true, if_false]
  refine ⟨hstep, ?_⟩
  simp only [create_date_folders, hstep]

/-- Claim C7, witness: the unconditional move applied with the
destination already occupied. -/
theorem archiver_move_unconditional_witness :
    ((strToLower (pathSuffix "a_20190314.jpg") == ".json" ||
      !(archiverExtensions.contains (strToLower (pathSuffix "a_20190314.jpg")))) = false) ∧
    get_date_taken 2026 [] ⟨"a_20190314.jpg", some "JPEG", none⟩ =
      some ⟨2019, 3, 14, 0, 0, 0⟩ ∧
    archStep 2026 [] [("2019/03/a_20190314.jpg", "old.jpg")]
        ⟨"a_20190314.jpg", some "JPEG", none⟩ =
      (shutilMovePosix "a_20190314.jpg"
        (destPath ⟨2019, 3, 14, 0, 0, 0⟩ "a_20190314.jpg")
        [("2019/03/a_20190314.jpg", "old.jpg")],
       ArchEvent.moved "a_20190314.jpg"
        (destPath ⟨2019, 3, 14, 0, 0, 0⟩ "a_20190314.jpg")) := by
  refine ⟨by decide, by decide, ?_⟩
  exact (archiver_move_unconditional 2026 [] [("2019/03/a_20190314.jpg", "old.jpg")]
    ⟨"a_20190314.jpg", some "JPEG", none⟩ ⟨2019, 3, 14, 0, 0, 0⟩ []
    (by decide) (by decide)).1

/-! ### Claim C8 -/

lemma pyTrunc_eq_floor {q : Rat} (h : 0 ≤ q) : pyTrunc q = ⌊q⌋ := by
  unfold pyTrunc
  rw [if_pos h]

lemma convert_to_degrees_floors (v : Rat) (hv : 0 ≤ v) :
    (convert_to_degrees v).1.1 = ⌊v⌋ ∧
    (convert_to_degrees v).2.1.1 = ⌊(v - ⌊v⌋) * 60⌋ ∧
    (convert_to_degrees v).2.2.1 = ⌊((v - ⌊v⌋) * 60 - ⌊(v - ⌊v⌋) * 60⌋) * 60⌋ := by
  have hfrac : (0 : Rat) ≤ v - ⌊v⌋ := sub_nonneg.mpr (Int.floor_le v)
  have hm : (0 : Rat) ≤ (v - ⌊v⌋) * 60 := mul_nonneg hfrac (by norm_num)
  have hsfrac : (0 : Rat) ≤ (v - ⌊v⌋) * 60 - ⌊(v - ⌊v⌋) * 60⌋ :=
    sub_nonneg.mpr (Int.floor_le _)
  have hs : (0 : Rat) ≤ ((v - ⌊v⌋) * 60 - ⌊(v - ⌊v⌋) * 60⌋) * 60 :=
    mul_nonneg hsfrac (by norm_num)
  have h1 : pyTrunc v = ⌊v⌋ := pyTrunc_eq_floor hv
  refine ⟨h1, ?_, ?_⟩
  · show pyTrunc ((v - (pyTrunc v : Rat)) * 60) = ⌊(v - ⌊v⌋) * 60⌋
    rw [h1]
    exact pyTrunc_eq_floor hm
  · show pyTrunc (((v - (pyTrunc v : Rat)) * 60 -
      (pyTrunc ((v - (pyTrunc v : Rat)) * 60) : Rat)) * 60) =
      ⌊((v - ⌊v⌋) * 60 - ⌊(v - ⌊v⌋) * 60⌋) * 60⌋
    rw [h1, pyTrunc_eq_floor hm]
    exact pyTrunc_eq_floor hs

/-- Claim C8: the hemisphere reference letters derive from the sign of
the inputs; the degrees/minutes/seconds values come from
`convert_to_degrees` of the absolute values, and its minutes and
seconds components are the integers truncated from (i.e. the floors
of) the exact fractional values, never rounded up; in particular
`get_exif_gps_dict (-33.86) 151.2` carries the references "S" and
"E". -/
theorem gps_encoder_sign_truncation (lat lon : Rat) :
    (get_exif_gps_dict lat lon).GPSLatitudeRef = (if 0 ≤ lat then "N" else "S") ∧
    (get_exif_gps_dict lat lon).GPSLongitudeRef = (if 0 ≤ lon then "E" else "W") ∧
    (get_exif_gps_dict lat lon).GPSLatitude = convert_to_degrees |lat| ∧
    (get_exif_gps_dict lat lon).GPSLongitude = convert_to_degrees |lon| ∧
    (((convert_to_degrees |lat|).2.1.1 : Rat) ≤ (|lat| - ⌊|lat|⌋) * 60 ∧
      (|lat| - (⌊|lat|⌋ : Rat)) * 60 < (convert_to_degrees |lat|).2.1.1 + 1) ∧
    (((convert_to_degrees |lat|).2.2.1 : Rat) ≤
        ((|lat| - ⌊|lat|⌋) * 60 - ⌊(|lat| - ⌊|lat|⌋) * 60⌋) * 60 ∧
      ((|lat| - ⌊|lat|⌋) * 60 - (⌊(|lat| - ⌊|lat|⌋) * 60⌋ : Rat)) * 60 <
        (convert_to_degrees |lat|).2.2.1 + 1) ∧
    (((convert_to_degrees |lon|).2.1.1 : Rat) ≤ (|lon| - ⌊|lon|⌋) * 60 ∧
      (|lon| - (⌊|lon|⌋ : Rat)) * 60 < (convert_to_degrees |lon|).2.1.1 + 1) ∧
    (((convert_to_degrees |lon|).2.2.1 : Rat) ≤
        ((|lon| - ⌊|lon|⌋) * 60 - ⌊(|lon| - ⌊|lon|⌋) * 60⌋) * 60 ∧
      ((|lon| - ⌊|lon|⌋) * 60 - (⌊(|lon| - ⌊|lon|⌋) * 60⌋ : Rat)) * 60 <
        (convert_to_degrees |lon|).2.2.1 + 1) ∧
    (get_exif_gps_dict (-33.86) (151.2)).GPSLatitudeRef = "S" ∧
    (get_exif_gps_dict (-33.86) (151.2)).GPSLongitudeRef = "E" := by
  obtain ⟨la1, la2, la3⟩ := convert_to_degrees_floors |lat| (abs_nonneg lat)
  obtain ⟨lo1, lo2, lo3⟩ := convert_to_degrees_floors |lon| (abs_nonneg lon)
  refine ⟨rfl, rfl, rfl, rfl, ?_, ?_, ?_, ?_, ?_, ?_⟩
  · rw [la2]
    exact ⟨Int.floor_le _, Int.lt_floor_add_one _⟩
  · rw [la3]
    exact ⟨Int.floor_le _, Int.lt_floor_add_one _⟩
  · rw [lo2]
    exact ⟨Int.floor_le _, Int.lt_floor_add_one _⟩
  · rw [lo3]
    exact ⟨Int.floor_le _, Int.lt_floor_add_one _⟩
  · show (if (0 : Rat) ≤ (-33.86) then "N" else "S") = "S"
    rw [if_neg (by norm_num)]
  · show (if (0 : Rat) ≤ (151.2 : Rat) then "E" else "W") = "E"
    rw [if_pos (by norm_num)]

end GPMM
